import Mathlib

set_option maxRecDepth 8192

/-
Shallow embedding of the telemetry analysis pipeline of the PI8SEM api
repository: the four analyzer modules analise_tensao_rms.py,
analise_corrente_rms.py, analise_potencia_ativa_reativa.py and
analise_demanda_perfil.py.

Modelling conventions:
* Python floats are modelled as exact rationals.  A quantity that is the
  square root of a rational (a sample standard deviation) is kept
  symbolically as PyNum.sqrtNum of its radicand, and a Pearson
  correlation as PyNum.corrv of its defining moments; both constructors
  are only applied to arguments that make the value finite, while the
  cases in which the pandas computation yields NaN are normalised to
  PyNum.nan at creation time.
* Timestamps are modelled after parsing, as optional rational instants
  (seconds since the Unix epoch).  The textual strptime and to_datetime
  parsers are not embedded; a record carries the parse result directly.
* A DataFrame built from a list of dicts is modelled as a list of
  records; a column exists when at least one record carries the key,
  and a missing cell reads as NaN, as in pandas.
* Branches of the code that raise a Python exception are modelled with
  Except: the error string names the exception that the source would
  raise there.
-/

/-- A Python numeric scalar as it can appear in an analyzer result:
None, float NaN, a finite rational, the finite square root of a
nonnegative rational, or a finite Pearson correlation given by its
moments (covariance and the two positive variances). -/
inductive PyNum where
  | null : PyNum
  | nan : PyNum
  | num (q : ℚ) : PyNum
  | sqrtNum (q : ℚ) : PyNum
  | corrv (cov vx vy : ℚ) : PyNum
deriving DecidableEq, Repr

/-- Whether a scalar is float NaN (the pd.isna test on a float). -/
def isNaNb : PyNum → Bool
  | .nan => true
  | _ => false

/-- The serialisation step applied to every numeric leaf by _to_native:
NaN becomes None, everything else is kept. -/
def cleanNum (v : PyNum) : PyNum := if isNaNb v then .null else v

mutual
/-- A JSON-like Python object tree as returned by the analyzers.  A time
leaf stands for a timestamp already rendered as a date string. -/
inductive PyObj where
  | num (v : PyNum) : PyObj
  | str (s : String) : PyObj
  | time (t : ℚ) : PyObj
  | dict (kvs : PyKVs) : PyObj
  | arr (xs : PyObjs) : PyObj
inductive PyObjs where
  | nil : PyObjs
  | cons (hd : PyObj) (tl : PyObjs) : PyObjs
inductive PyKVs where
  | nil : PyKVs
  | cons (k : String) (v : PyObj) (tl : PyKVs) : PyKVs
end

deriving instance DecidableEq for PyObj
deriving instance Repr for PyObj

/-- Build the key-value spine of a dict from a list. -/
def mkKVs : List (String × PyObj) → PyKVs
  | [] => .nil
  | (k, v) :: tl => .cons k v (mkKVs tl)

/-- Build a dict object from a list of key-value pairs. -/
def PyObj.mkDict (l : List (String × PyObj)) : PyObj := .dict (mkKVs l)

/-- Build the spine of a list object. -/
def mkObjs : List PyObj → PyObjs
  | [] => .nil
  | x :: tl => .cons x (mkObjs tl)

/-- Build a list object from a list. -/
def PyObj.mkArr (l : List PyObj) : PyObj := .arr (mkObjs l)

/-- The elements of a list object. -/
def PyObjs.toList : PyObjs → List PyObj
  | .nil => []
  | .cons x tl => x :: tl.toList

/-- Find the value bound to a key in a dict spine. -/
def findKey : PyKVs → String → Option PyObj
  | .nil, _ => none
  | .cons k v tl, s => if k = s then some v else findKey tl s

/-- Dictionary access on an object: none on non-dicts and absent keys. -/
def PyObj.getKey : PyObj → String → Option PyObj
  | .dict kvs, s => findKey kvs s
  | _, _ => none

mutual
/-- _to_native, identical in the corrente, potencia and demanda modules:
recursively converts the result to plain Python values; on a numeric
leaf the pd.isna check turns NaN into None. -/
def toNative : PyObj → PyObj
  | .num v => .num (cleanNum v)
  | .str s => .str s
  | .time t => .time t
  | .dict kvs => .dict (toNativeKVs kvs)
  | .arr xs => .arr (toNativeObjs xs)
def toNativeObjs : PyObjs → PyObjs
  | .nil => .nil
  | .cons x tl => .cons (toNative x) (toNativeObjs tl)
def toNativeKVs : PyKVs → PyKVs
  | .nil => .nil
  | .cons k v tl => .cons k (toNative v) (toNativeKVs tl)
end

mutual
/-- Whether a NaN leaf occurs anywhere in an object tree. -/
def containsNaN : PyObj → Bool
  | .num v => isNaNb v
  | .str _ => false
  | .time _ => false
  | .dict kvs => containsNaNKVs kvs
  | .arr xs => containsNaNObjs xs
def containsNaNObjs : PyObjs → Bool
  | .nil => false
  | .cons x tl => containsNaN x || containsNaNObjs tl
def containsNaNKVs : PyKVs → Bool
  | .nil => false
  | .cons _ v tl => containsNaN v || containsNaNKVs tl
end

/-- One telemetry record after numeric coercion (pd.to_numeric with
errors equal to coerce).  The ts field is the designated timestamp
column of the analyzer (data_coleta for tensao, data_inc for the
others): none when the key is absent from the record, some none when it
is present but null or unparsable, some (some t) when it parses to the
instant t.  vals holds the numeric channel fields: an entry (c, none)
is a present but missing or non-numeric cell, an absent key is an
absent cell.  String identifier columns, which no analyzer reads, are
not modelled. -/
structure Rec where
  ts : Option (Option ℚ)
  vals : List (String × Option ℚ)
deriving DecidableEq, Repr

/-- The parsed timestamp of a record (NaT when invalid or absent). -/
def Rec.tsv (r : Rec) : Option ℚ := r.ts.join

/-- Series.get on a row: a missing key and a NaN cell both read NaN. -/
def getv (r : Rec) (c : String) : Option ℚ := (r.vals.lookup c).join

/-- Column membership of a frame built from a list of dicts. -/
def hasCol (rows : List Rec) (c : String) : Bool :=
  rows.any (fun r => (r.vals.lookup c).isSome)

/-- Whether the designated timestamp column exists in the frame. -/
def hasTsCol (rows : List Rec) : Bool := rows.any (fun r => r.ts.isSome)

/-- A whole column as a list of cells, NaN included. -/
def colVals (rows : List Rec) (c : String) : List (Option ℚ) :=
  rows.map (fun r => getv r c)

/-- The parsed timestamp column. -/
def colTs (rows : List Rec) : List (Option ℚ) := rows.map Rec.tsv

/-- Comparison used by sort_values on the parsed timestamp column:
valid instants ascending, NaT last. -/
def tsLEb (a b : Rec) : Bool :=
  match a.tsv, b.tsv with
  | some x, some y => decide (x ≤ y)
  | some _, none => true
  | none, some _ => false
  | none, none => true

def tsLE (a b : Rec) : Prop := tsLEb a b = true

instance : DecidableRel tsLE := fun _ _ => inferInstanceAs (Decidable (_ = true))

/-- df.sort_values on the parsed timestamp column followed by
reset_index.  The pandas sort is not stable for ties; this
determinisation keeps ties in input order, which no claim depends on. -/
def sortRecs (rows : List Rec) : List Rec := List.insertionSort tsLE rows

theorem sortRecs_perm (rows : List Rec) : List.Perm (sortRecs rows) rows :=
  List.perm_insertionSort tsLE rows

/-- Arithmetic mean of a list of values. -/
def listMean (l : List ℚ) : ℚ := l.sum / l.length

/-- Sample variance with the n-1 denominator, as Series.std squared;
only used behind guards that ensure at least two samples. -/
def sampleVar (l : List ℚ) : ℚ :=
  ((l.map (fun x => (x - listMean l) ^ 2)).sum) / ((l.length : ℚ) - 1)

/-- Series.std on a nonempty series: NaN for a single sample, otherwise
the finite square root of the sample variance. -/
def sampleStdNum (l : List ℚ) : PyNum :=
  if l.length < 2 then .nan else .sqrtNum (sampleVar l)

/-- Minimum of a list, none when empty (Series.min skips NaN upstream). -/
def optMin (l : List ℚ) : Option ℚ :=
  match l with
  | [] => none
  | x :: xs => some (xs.foldl min x)

/-- Maximum of a list, none when empty. -/
def optMax (l : List ℚ) : Option ℚ :=
  match l with
  | [] => none
  | x :: xs => some (xs.foldl max x)

/-- Minimum of a nonempty list, with a junk value on the empty list
(only used behind nonemptiness guards). -/
def minD (l : List ℚ) : ℚ := (optMin l).getD 0

def maxD (l : List ℚ) : ℚ := (optMax l).getD 0

/-- Series.median of a nonempty list: the middle element of the sorted
list, or the mean of the two middle elements for even length. -/
def medianQ (l : List ℚ) : ℚ :=
  let s := List.insertionSort (· ≤ ·) l
  (s.getD ((s.length - 1) / 2) 0 + s.getD (s.length / 2) 0) / 2

/-- Exact test of abs z > thr where z = d / sqrt v with v > 0: for a
nonnegative threshold this is d ^ 2 > thr ^ 2 * v, and a negative
threshold is exceeded by every z. -/
def zExceeds (d thr v : ℚ) : Bool :=
  if thr < 0 then true else decide (d ^ 2 > thr ^ 2 * v)

/-- detectar_anomalias_zscore, identical in all four analyzer modules:
no flags when the series has no samples or when sigma is zero or NaN (a
single sample); otherwise the positional indices whose z magnitude
exceeds the threshold, NaN cells never flagged. -/
def detectar_anomalias_zscore (col : List (Option ℚ)) (z_thr : ℚ) : List ℕ :=
  let s := col.filterMap id
  if s.length < 2 then []
  else if sampleVar s = 0 then []
  else col.enum.filterMap (fun p =>
    match p.2 with
    | some x => if zExceeds (x - listMean s) z_thr (sampleVar s) then some p.1 else none
    | none => none)

/-- The samples usable by the trend fitter: positions where both the
parsed timestamp and the channel value are present. -/
def usablePairs (times vals : List (Option ℚ)) : List (ℚ × ℚ) :=
  (times.zip vals).filterMap (fun p =>
    match p.1, p.2 with
    | some t, some y => some (t, y)
    | _, _ => none)

/-- Earliest usable timestamp (junk 0 on the empty list, only used
behind guards). -/
def tminOf (u : List (ℚ × ℚ)) : ℚ := (optMin (u.map Prod.fst)).getD 0

/-- np.ptp of the elapsed-seconds axis: max minus min of the usable
timestamps. -/
def ptpUsable (u : List (ℚ × ℚ)) : ℚ :=
  maxD (u.map Prod.fst) - minD (u.map Prod.fst)

/-- The shifted regression points: elapsed seconds since the earliest
usable timestamp, paired with the channel values. -/
def xsys (u : List (ℚ × ℚ)) : List (ℚ × ℚ) :=
  u.map (fun p => (p.1 - tminOf u, p.2))

/-- Degree-1 least-squares slope of np.polyfit in exact arithmetic. -/
def olsSlope (u : List (ℚ × ℚ)) : ℚ :=
  let pts := xsys u
  let n : ℚ := pts.length
  let sx := (pts.map Prod.fst).sum
  let sy := (pts.map Prod.snd).sum
  let sxx := (pts.map (fun p => p.1 * p.1)).sum
  let sxy := (pts.map (fun p => p.1 * p.2)).sum
  (n * sxy - sx * sy) / (n * sxx - sx * sx)

/-- Degree-1 least-squares intercept of np.polyfit in exact
arithmetic, at the earliest usable timestamp. -/
def olsIntercept (u : List (ℚ × ℚ)) : ℚ :=
  let pts := xsys u
  let n : ℚ := pts.length
  ((pts.map Prod.snd).sum - olsSlope u * (pts.map Prod.fst).sum) / n

/-- The null trend dictionary. -/
def nullTrend : PyObj :=
  PyObj.mkDict [("slope_per_s", .num .null), ("intercept", .num .null)]

/-- tendencia_linear_simples as written in the corrente, potencia and
demanda modules: guards for point count, finiteness (a no-op over exact
rationals, every modelled value being finite) and zero time spread; the
residual try/except around np.polyfit is unreachable in exact
arithmetic once the spread is nonzero. -/
def tendencia_linear_simples (times vals : List (Option ℚ)) : PyObj :=
  let u := usablePairs times vals
  if u.length < 2 then nullTrend
  else if ptpUsable u = 0 then nullTrend
  else PyObj.mkDict [("slope_per_s", .num (.num (olsSlope u))),
                     ("intercept", .num (.num (olsIntercept u)))]

/-- tendencia_linear_simples of the tensao module: only the point-count
guard exists.  With at least two usable points all at one instant,
np.polyfit normalises a zero-norm Vandermonde column, producing NaNs on
which numpy lstsq raises LinAlgError; the tensao module has no
try/except, so the exception propagates. -/
def tensao_tendencia (times vals : List (Option ℚ)) : Except String PyObj :=
  let u := usablePairs times vals
  if u.length < 2 then .ok nullTrend
  else if ptpUsable u = 0 then
    .error "LinAlgError: SVD did not converge in Linear Least Squares"
  else .ok (PyObj.mkDict [("slope_per_s", .num (.num (olsSlope u))),
                          ("intercept", .num (.num (olsIntercept u)))])

/-- outside_limits of the tensao module. -/
def outside_limits (val : Option ℚ) (nominal tol_perc : ℚ) : Option String :=
  match val with
  | none => none
  | some v =>
    if v < nominal * (1 - tol_perc) then some "subtensão"
    else if v > nominal * (1 + tol_perc) then some "sobretensão"
    else some "ok"

/-- outside_limits of the corrente module. -/
def outside_limits_corrente (val : Option ℚ) (nominal tol_perc : ℚ) : Option String :=
  match val with
  | none => none
  | some v =>
    if v < nominal * (1 - tol_perc) then some "subcorrente"
    else if v > nominal * (1 + tol_perc) then some "sobrecorrente"
    else some "ok"

/-- outside_limits_power of the potencia module. -/
def outside_limits_power (val : Option ℚ) (nominal tol_perc : ℚ) : Option String :=
  match val with
  | none => none
  | some v =>
    if v < nominal * (1 - tol_perc) then some "queda_potencia"
    else if v > nominal * (1 + tol_perc) then some "sobrecarga_potencia"
    else some "ok"

/-- The fixed candidate nominal voltages POSSIVEIS_NIVEIS. -/
def possiveis_niveis : List ℚ := [110, 220, 380]

/-- All non-missing values pooled across a channel group, column by
column, as escolher_nivel_nominal collects them. -/
def pooledVals (rows : List Rec) (fases : List String) : List ℚ :=
  fases.flatMap (fun f =>
    if hasCol rows f then (colVals rows f).filterMap id else [])

/-- Python min over a three-element list with a key function: the first
element of minimal key. -/
def pyMin3 (key : ℚ → ℚ) (a b c : ℚ) : ℚ :=
  let m1 := if key b < key a then b else a
  if key c < key m1 then c else m1

/-- escolher_nivel_nominal of the tensao module: the candidate nominal
voltage closest to the median of the pooled phase samples, none when
there are no samples. -/
def escolher_nivel_nominal (rows : List Rec) (fases : List String) : Option ℚ :=
  let vals := pooledVals rows fases
  if vals = [] then none
  else some (pyMin3 (fun x => |x - medianQ vals|) 110 220 380)

/-- escolher_nivel_nominal_por_mediana of the corrente module: the raw
median of the pooled phase samples. -/
def escolher_nivel_nominal_por_mediana (rows : List Rec) (fases : List String) : Option ℚ :=
  let vals := pooledVals rows fases
  if vals = [] then none else some (medianQ vals)

/-- escolher_nivel_nominal_potencia_total of the potencia module: the
raw median of the potencia_ativa_tot column. -/
def escolher_nivel_nominal_potencia_total (rows : List Rec) : Option ℚ :=
  if hasCol rows "potencia_ativa_tot" then
    let s := (colVals rows "potencia_ativa_tot").filterMap id
    if s = [] then none else some (medianQ s)
  else none

/-- One element of the JSON input payload: a plain record mapping, a
dadoEnergia envelope around a record, or any non-mapping value. -/
inductive InVal where
  | obj (r : Rec) : InVal
  | envObj (r : Rec) : InVal
  | nonDict : InVal
deriving DecidableEq, Repr

/-- The records argument of the public analyzer functions: null, a
single value, or a list of values. -/
inductive PyInput where
  | null : PyInput
  | single (v : InVal) : PyInput
  | list (l : List InVal) : PyInput
deriving DecidableEq, Repr

/-- _normalizar_input, identical in the corrente, potencia and demanda
modules: null becomes the empty batch, a single mapping is unwrapped
from its envelope if present and wrapped in a singleton list, a list
keeps its mappings (envelopes unwrapped) and silently drops non-mapping
elements, anything else becomes the empty batch. -/
def normalizar_input : PyInput → List Rec
  | .null => []
  | .single (.obj r) => [r]
  | .single (.envObj r) => [r]
  | .single .nonDict => []
  | .list l => l.filterMap (fun v =>
      match v with
      | .obj r => some r
      | .envObj r => some r
      | .nonDict => none)

/-- A numeric cell rendered into the result: None for NaN, the value
otherwise (the pattern None if pd.isna(x) else float(x)). -/
def optNum : Option ℚ → PyObj
  | none => .num .null
  | some q => .num (.num q)

/-- A parsed timestamp rendered into the result: the formatted date
string, or None when invalid. -/
def tsObjOf (r : Rec) : PyObj :=
  match r.tsv with
  | some t => .time t
  | none => .num .null

/-- Series.min over the valid timestamps rendered into meta. -/
def periodoObj (l : Option ℚ) : PyObj :=
  match l with
  | some t => .time t
  | none => .num .null

/-- One row of the per-phase statistics table, with the analyzer
specific key names passed in: all fields null with count 0 when the
column is absent or empty, otherwise mean, std, min, max and count over
the non-missing values. -/
def estatRow (labelKey mediaK stdK minK maxK : String) (rows : List Rec) (f : String) : PyObj :=
  if hasCol rows f then
    let s := (colVals rows f).filterMap id
    if s = [] then
      PyObj.mkDict [(labelKey, .str f), (mediaK, .num .null), (stdK, .num .null),
                    (minK, .num .null), (maxK, .num .null), ("Amostras", .num (.num 0))]
    else
      PyObj.mkDict [(labelKey, .str f), (mediaK, .num (.num (listMean s))),
                    (stdK, .num (sampleStdNum s)), (minK, .num (.num (minD s))),
                    (maxK, .num (.num (maxD s))), ("Amostras", .num (.num (s.length : ℚ)))]
  else
    PyObj.mkDict [(labelKey, .str f), (mediaK, .num .null), (stdK, .num .null),
                  (minK, .num .null), (maxK, .num .null), ("Amostras", .num (.num 0))]

/-- The three current phase columns. -/
def correnteFases : List String := ["corrente_1", "corrente_2", "corrente_3"]

/-- One point of the corrente time series. -/
def corrente_grafico_row (r : Rec) : PyObj :=
  PyObj.mkDict [("data_inc", tsObjOf r),
                ("corrente_1", optNum (getv r "corrente_1")),
                ("corrente_2", optNum (getv r "corrente_2")),
                ("corrente_3", optNum (getv r "corrente_3"))]

/-- The event the corrente module emits for one row and one phase, if
any: rows with an invalid timestamp get a null data_inc but are still
checked against the band. -/
def correnteEventFor (nivel tol : ℚ) (r : Rec) (f : String) : Option PyObj :=
  match outside_limits_corrente (getv r f) nivel tol with
  | some s =>
    if s = "subcorrente" ∨ s = "sobrecorrente" then
      some (PyObj.mkDict [("data_inc", tsObjOf r), ("fase", .str f),
                          ("valor", optNum (getv r f)), ("tipo", .str s)])
    else none
  | none => none

/-- All out-of-limit events of the corrente module, row-major over the
sorted frame. -/
def correnteEvents (rows : List Rec) (nivel tol : ℚ) : List PyObj :=
  rows.flatMap (fun r => correnteFases.filterMap (correnteEventFor nivel tol r))

/-- The meta block of the corrente result. -/
def corrente_meta (sorted : List Rec) (nivel : Option ℚ) (tol : ℚ) : PyObj :=
  PyObj.mkDict
    [("registros", .num (.num (sorted.length : ℚ))),
     ("periodo_inicio", periodoObj (optMin ((colTs sorted).filterMap id))),
     ("periodo_fim", periodoObj (optMax ((colTs sorted).filterMap id))),
     ("nivel_nominal_detectado", optNum nivel),
     ("tolerancia_perc", .num (.num tol)),
     ("timestamps_parsed", .num (.num ((sorted.countP (fun r => r.tsv.isSome)) : ℚ))),
     ("timestamps_invalid", .num (.num ((sorted.length - sorted.countP (fun r => r.tsv.isSome)) : ℚ)))]

/-- analyze_records_corrente before the final _to_native pass. -/
def corrente_result (inp : PyInput) (tol z : ℚ) : PyObj :=
  let rows := normalizar_input inp
  let sorted := sortRecs rows
  let nivel := escolher_nivel_nominal_por_mediana sorted correnteFases
  PyObj.mkDict
    [("meta", corrente_meta sorted nivel tol),
     ("tabela_estatisticas", PyObj.mkDict
        [("data", PyObj.mkArr (correnteFases.map
            (estatRow "Fase" "Média (A)" "Desvio Padrão (A)" "Mín (A)" "Máx (A)" sorted)))]),
     ("grafico_corrente_time_series", PyObj.mkDict
        [("data", PyObj.mkArr (sorted.map corrente_grafico_row))]),
     ("tendencias_lin", PyObj.mkDict (correnteFases.map (fun f =>
        (f, tendencia_linear_simples (colTs sorted) (colVals sorted f))))),
     ("anomalias_indices", PyObj.mkDict (correnteFases.map (fun f =>
        (f, PyObj.mkArr ((detectar_anomalias_zscore (colVals sorted f) z).map
              (fun i => .num (.num (i : ℚ)))))))),
     ("events_out_of_limit", PyObj.mkArr
        (match nivel with
         | some nv => correnteEvents sorted nv tol
         | none => []))]

/-- analyze_records_corrente (and the public analisar_corrente_json):
the assembled result passed through _to_native. -/
def analyze_records_corrente (inp : PyInput) (tol z : ℚ) : PyObj :=
  toNative (corrente_result inp tol z)

/-- The dynamic component list of the potencia module: the per-phase
and total active and reactive power columns that exist in the frame, in
the order the source assembles them. -/
def potenciaComponentes (rows : List Rec) : List String :=
  (["potencia_ativa_1", "potencia_ativa_2", "potencia_ativa_3"].filter (fun c => hasCol rows c))
  ++ (if hasCol rows "potencia_ativa_tot" then ["potencia_ativa_tot"] else [])
  ++ (["potencia_reat_1", "potencia_reat_2", "potencia_reat_3"].filter (fun c => hasCol rows c))
  ++ (if hasCol rows "potencia_reat_tot" then ["potencia_reat_tot"] else [])

/-- One point of the potencia time series: the timestamp plus one entry
per existing component. -/
def potencia_grafico_row (comps : List String) (r : Rec) : PyObj :=
  PyObj.mkDict (("data_inc", tsObjOf r) :: comps.map (fun c => (c, optNum (getv r c))))

/-- The event the potencia module emits for one row on the total active
power, if any. -/
def potenciaEventFor (nivel tol : ℚ) (r : Rec) : Option PyObj :=
  match outside_limits_power (getv r "potencia_ativa_tot") nivel tol with
  | some s =>
    if s = "queda_potencia" ∨ s = "sobrecarga_potencia" then
      some (PyObj.mkDict [("data_inc", tsObjOf r), ("componente", .str "potencia_ativa_tot"),
                          ("valor", optNum (getv r "potencia_ativa_tot")), ("tipo", .str s)])
    else none
  | none => none

/-- analyze_records_potencia before the final _to_native pass. -/
def potencia_result (inp : PyInput) (tol z : ℚ) : PyObj :=
  let rows := normalizar_input inp
  let sorted := sortRecs rows
  let comps := potenciaComponentes sorted
  let nivel := escolher_nivel_nominal_potencia_total sorted
  PyObj.mkDict
    [("meta", PyObj.mkDict
        [("registros", .num (.num (sorted.length : ℚ))),
         ("periodo_inicio", periodoObj (optMin ((colTs sorted).filterMap id))),
         ("periodo_fim", periodoObj (optMax ((colTs sorted).filterMap id))),
         ("nivel_nominal_ativa_tot", optNum nivel),
         ("tolerancia_perc", .num (.num tol)),
         ("timestamps_parsed", .num (.num ((sorted.countP (fun r => r.tsv.isSome)) : ℚ))),
         ("timestamps_invalid", .num (.num ((sorted.length - sorted.countP (fun r => r.tsv.isSome)) : ℚ)))]),
     ("tabela_estatisticas", PyObj.mkDict
        [("data", PyObj.mkArr (comps.map
            (estatRow "Componente" "Média" "Desvio Padrão" "Mín" "Máx" sorted)))]),
     ("grafico_potencia_time_series", PyObj.mkDict
        [("data", PyObj.mkArr (sorted.map (potencia_grafico_row comps)))]),
     ("tendencias_lin", PyObj.mkDict (comps.map (fun c =>
        (c, tendencia_linear_simples (colTs sorted) (colVals sorted c))))),
     ("anomalias_indices", PyObj.mkDict (comps.map (fun c =>
        (c, PyObj.mkArr ((detectar_anomalias_zscore (colVals sorted c) z).map
              (fun i => .num (.num (i : ℚ)))))))),
     ("events_out_of_limit", PyObj.mkArr
        (match nivel with
         | some nv => sorted.filterMap (potenciaEventFor nv tol)
         | none => []))]

/-- analyze_records_potencia (and the public analisar_potencia_json). -/
def analyze_records_potencia (inp : PyInput) (tol z : ℚ) : PyObj :=
  toNative (potencia_result inp tol z)

/-- One element of the list passed to the tensao analyzer.  The tensao
module requires an iterable of mappings; non-mapping elements, whose
DataFrame construction semantics the claims do not exercise, are kept
out of the model. -/
inductive TItem where
  | obj (r : Rec) : TItem
  | envObj (r : Rec) : TItem
deriving DecidableEq, Repr

/-- The row extraction of the tensao module, r.get of dadoEnergia with
default the empty dict: an envelope yields its inner record, while a
plain mapping without the envelope key collapses to the empty record. -/
def tensao_rows (l : List TItem) : List Rec :=
  l.map (fun it =>
    match it with
    | .envObj r => r
    | .obj _ => ⟨none, []⟩)

/-- The three voltage phase columns. -/
def tensaoFases : List String := ["tensao_1", "tensao_2", "tensao_3"]

/-- calcula_unbalance on one row: over the phase values present in the
frame and non-missing in the row, NaN with fewer than two values or a
zero mean, otherwise the maximal relative deviation from the row mean
in percent. -/
def tensao_unbalance (rows : List Rec) (r : Rec) : Option ℚ :=
  let vals := (tensaoFases.filter (fun f => hasCol rows f)).filterMap (fun f => getv r f)
  if vals.length < 2 then none
  else if listMean vals = 0 then none
  else some (maxD (vals.map (fun v => |v - listMean vals|)) / listMean vals * 100)

/-- One point of the tensao time series. -/
def tensao_grafico_row (rows : List Rec) (r : Rec) : PyObj :=
  PyObj.mkDict [("data_coleta", tsObjOf r),
                ("tensao_1", optNum (getv r "tensao_1")),
                ("tensao_2", optNum (getv r "tensao_2")),
                ("tensao_3", optNum (getv r "tensao_3")),
                ("potencia_ativa_tot", optNum (getv r "potencia_ativa_tot")),
                ("unbalance_perc", optNum (tensao_unbalance rows r))]

/-- The event the tensao module emits for one row and one phase, if
any. -/
def tensaoEventFor (nivel tol : ℚ) (r : Rec) (f : String) : Option PyObj :=
  match outside_limits (getv r f) nivel tol with
  | some s =>
    if s = "subtensão" ∨ s = "sobretensão" then
      some (PyObj.mkDict [("data_coleta", tsObjOf r), ("fase", .str f),
                          ("valor", optNum (getv r f)), ("tipo", .str s)])
    else none
  | none => none

/-- All out-of-limit events of the tensao module. -/
def tensaoEvents (rows : List Rec) (nivel tol : ℚ) : List PyObj :=
  rows.flatMap (fun r => tensaoFases.filterMap (tensaoEventFor nivel tol r))

/-- One Pearson correlation entry of df.corr(): over the rows where
both columns are non-missing, NaN when fewer than two such rows or when
either variance vanishes, otherwise the finite value cov / sqrt(vx*vy)
represented by its moments. -/
def corrPairNum (xs ys : List (Option ℚ)) : PyNum :=
  let ps := (xs.zip ys).filterMap (fun p =>
    match p.1, p.2 with
    | some a, some b => some (a, b)
    | _, _ => none)
  if ps.length < 2 then .nan
  else
    let mx := listMean (ps.map Prod.fst)
    let my := listMean (ps.map Prod.snd)
    let n : ℚ := ps.length
    let cov := ((ps.map (fun p => (p.1 - mx) * (p.2 - my))).sum) / (n - 1)
    let vx := sampleVar (ps.map Prod.fst)
    let vy := sampleVar (ps.map Prod.snd)
    if vx = 0 ∨ vy = 0 then .nan else .corrv cov vx vy

/-- The candidate correlation columns of the tensao module that exist
in the frame. -/
def tensaoCorrCols (rows : List Rec) : List String :=
  ["tensao_1", "tensao_2", "tensao_3", "potencia_ativa_tot", "fator_potencia"].filter
    (fun c => hasCol rows c)

/-- df.corr().to_dict() of the tensao module: the empty dict with fewer
than two candidate columns, otherwise the full matrix as nested dicts. -/
def tensao_correl (rows : List Rec) : PyObj :=
  let cs := tensaoCorrCols rows
  if cs.length < 2 then PyObj.mkDict []
  else PyObj.mkDict (cs.map (fun ci =>
    (ci, PyObj.mkDict (cs.map (fun cj =>
      (cj, .num (corrPairNum (colVals rows ci) (colVals rows cj))))))))

/-- analyze_records of the tensao module (and the public
analisar_dados_json).  Unlike the other three analyzers it has no input
normalisation and no column guards: a null input is not iterable
(TypeError), a frame without the data_coleta column (in particular the
empty batch, and any batch of non-enveloped records) raises KeyError,
a frame missing one of the three phase columns raises KeyError when the
trend loop indexes it, and the unguarded trend fit itself can raise. -/
def analyze_records (inp : Option (List TItem)) (tol_perc z_thr : ℚ) : Except String PyObj :=
  match inp with
  | none => .error "TypeError: NoneType object is not iterable"
  | some items =>
    let rows := tensao_rows items
    if hasTsCol rows then
      let sorted := sortRecs rows
      if tensaoFases.all (fun f => hasCol sorted f) then do
        let t1 ← tensao_tendencia (colTs sorted) (colVals sorted "tensao_1")
        let t2 ← tensao_tendencia (colTs sorted) (colVals sorted "tensao_2")
        let t3 ← tensao_tendencia (colTs sorted) (colVals sorted "tensao_3")
        let nivel := escolher_nivel_nominal sorted tensaoFases
        .ok (PyObj.mkDict
          [("meta", PyObj.mkDict
              [("registros", .num (.num (sorted.length : ℚ))),
               ("periodo_inicio", periodoObj (optMin ((colTs sorted).filterMap id))),
               ("periodo_fim", periodoObj (optMax ((colTs sorted).filterMap id))),
               ("nivel_nominal_detectado", optNum nivel),
               ("tolerancia_perc", .num (.num tol_perc))]),
           ("tabela_estatisticas", PyObj.mkDict
              [("data", PyObj.mkArr (tensaoFases.map
                  (estatRow "Fase" "Média (V)" "Desvio Padrão (V)" "Mín (V)" "Máx (V)" sorted)))]),
           ("grafico_tensao_time_series", PyObj.mkDict
              [("data", PyObj.mkArr (sorted.map (tensao_grafico_row sorted)))]),
           ("tendencias_lin", PyObj.mkDict [("tensao_1", t1), ("tensao_2", t2), ("tensao_3", t3)]),
           ("anomalias_indices", PyObj.mkDict (tensaoFases.map (fun f =>
              (f, PyObj.mkArr ((detectar_anomalias_zscore (colVals sorted f) z_thr).map
                    (fun i => .num (.num (i : ℚ)))))))),
           ("events_out_of_limit", PyObj.mkArr
              (match nivel with
               | some nv => tensaoEvents sorted nv tol_perc
               | none => [])),
           ("correlacoes", tensao_correl sorted)])
      else .error "KeyError: tensao phase column"
    else .error "KeyError: data_coleta"

/-- The three per-phase active power columns used by the demand sum
fallback. -/
def demandFases : List String := ["potencia_ativa_1", "potencia_ativa_2", "potencia_ativa_3"]

/-- The shared tail of _choose_demand_field: the conventional total
field, then the alternate conventional field; the branch of the source
that tests for all three phase columns returns None exactly like the
final fallthrough, so both are this final none. -/
def choose_rest (rows : List Rec) : Option String :=
  if hasCol rows "potencia_ativa_tot" then some "potencia_ativa_tot"
  else if hasCol rows "potencia_ap_tot" then some "potencia_ap_tot"
  else none

/-- _choose_demand_field: the caller-specified field when that column
exists, else the conventional candidates, else None. -/
def choose_demand_field (rows : List Rec) (field_name : Option String) : Option String :=
  match field_name with
  | some f => if hasCol rows f then some f else choose_rest rows
  | none => choose_rest rows

/-- DataFrame.sum with axis 1 and min_count 1 on one row: NaN when no
addend is present, otherwise the sum of the present addends. -/
def minCountSum (l : List (Option ℚ)) : Option ℚ :=
  let xs := l.filterMap id
  if xs = [] then none else some xs.sum

/-- The fallback half of _compute_demand_series, reached when no single
column was chosen: the row-wise min_count sum over whichever of the
three phase columns exist (any nonempty subset), else the first
existing alternate column, else the all-missing series. -/
def compute_demand_fallback (rows : List Rec) : List (Option ℚ) :=
  let faseCols := demandFases.filter (fun c => hasCol rows c)
  if faseCols.isEmpty then
    if hasCol rows "potencia_ap_tot" then colVals rows "potencia_ap_tot"
    else if hasCol rows "potencia_ap_1" then colVals rows "potencia_ap_1"
    else if hasCol rows "potencia_ap_2" then colVals rows "potencia_ap_2"
    else if hasCol rows "potencia_ap_3" then colVals rows "potencia_ap_3"
    else rows.map (fun _ => none)
  else rows.map (fun r => minCountSum (faseCols.map (fun c => getv r c)))

/-- _compute_demand_series: the chosen column when it exists, else the
fallback chain. -/
def compute_demand_series (rows : List Rec) (chosen : Option String) : List (Option ℚ) :=
  match chosen with
  | some c => if hasCol rows c then colVals rows c else compute_demand_fallback rows
  | none => compute_demand_fallback rows

/-- The resampling bucket width in seconds: hourly for the hour
granularity, daily otherwise (the source treats every non-hour value as
daily). -/
def aggWidth (agg : String) : ℚ := if agg = "hour" then 3600 else 86400

/-- The bucket index of an instant: pandas resample aligns buckets to
the epoch grid. -/
def bucketIdx (w t : ℚ) : ℤ := ⌊t / w⌋

/-- The samples with a valid timestamp (tmp.dropna on dt only): the
demand value may still be NaN. -/
def validPairs (times vals : List (Option ℚ)) : List (ℚ × Option ℚ) :=
  (times.zip vals).filterMap (fun p =>
    match p.1 with
    | some t => some (t, p.2)
    | none => none)

/-- The non-missing demand values falling in one bucket. -/
def bucketVals (w : ℚ) (ps : List (ℚ × Option ℚ)) (i : ℤ) : List ℚ :=
  ps.filterMap (fun p => if bucketIdx w p.1 = i then p.2 else none)

/-- The first bucket index of the resampled range. -/
def iminOf (w : ℚ) (ps : List (ℚ × Option ℚ)) : ℤ :=
  match ps.map (fun p => bucketIdx w p.1) with
  | [] => 0
  | x :: xs => xs.foldl min x

/-- The last bucket index of the resampled range. -/
def imaxOf (w : ℚ) (ps : List (ℚ × Option ℚ)) : ℤ :=
  match ps.map (fun p => bucketIdx w p.1) with
  | [] => 0
  | x :: xs => xs.foldl max x

/-- aggregate_time_series: Series.resample with mean.  pandas emits one
bucket for every grid step from the first to the last populated bucket;
a bucket holding no non-missing value gets mean NaN.  The result pairs
each bucket start with its mean. -/
def aggregate_time_series (times vals : List (Option ℚ)) (agg : String) : List (ℚ × Option ℚ) :=
  let w := aggWidth agg
  let ps := validPairs times vals
  if ps.isEmpty then []
  else
    let imin := iminOf w ps
    let imax := imaxOf w ps
    (List.range ((imax - imin).toNat + 1)).map (fun (k : ℕ) =>
      let i : ℤ := imin + (k : ℤ)
      let bs := bucketVals w ps i
      ((i : ℚ) * w, if bs.isEmpty then none else some (listMean bs)))

/-- The hour of day of an instant (pandas dt.hour). -/
def hourOfDay (t : ℚ) : ℤ := ⌊t / 3600⌋ % 24

/-- The day of week of an instant (pandas dt.dayofweek, Monday 0); the
Unix epoch fell on a Thursday. -/
def dayOfWeek (t : ℚ) : ℤ := (⌊t / 86400⌋ + 3) % 7

/-- The raw samples with both a valid timestamp and a non-missing
demand value (tmp.dropna on dt and val). -/
def validFullPairs (times vals : List (Option ℚ)) : List (ℚ × ℚ) :=
  (times.zip vals).filterMap (fun p =>
    match p.1, p.2 with
    | some t, some v => some (t, v)
    | _, _ => none)

/-- perfil_horario: empty when no sample has both fields, otherwise the
24 hour-of-day group means reindexed over 0..23 with NaN fill. -/
def perfil_horario (times vals : List (Option ℚ)) : List PyObj :=
  let pairs := validFullPairs times vals
  if pairs.isEmpty then []
  else (List.range 24).map (fun h =>
    let hs := pairs.filterMap (fun p => if hourOfDay p.1 = (h : ℤ) then some p.2 else none)
    PyObj.mkDict [("hour", .num (.num (h : ℚ))),
                  ("media", if hs.isEmpty then .num .null else .num (.num (listMean hs)))])

/-- perfil_diario: the 7 day-of-week group means reindexed over 0..6. -/
def perfil_diario (times vals : List (Option ℚ)) : List PyObj :=
  let pairs := validFullPairs times vals
  if pairs.isEmpty then []
  else (List.range 7).map (fun d =>
    let ds := pairs.filterMap (fun p => if dayOfWeek p.1 = (d : ℤ) then some p.2 else none)
    PyObj.mkDict [("dayofweek", .num (.num (d : ℚ))),
                  ("media", if ds.isEmpty then .num .null else .num (.num (listMean ds)))])

/-- Descending order on the aggregated values used by top_n_picos. -/
def descVal (a b : ℚ × ℚ) : Prop := decide (b.2 ≤ a.2) = true

instance : DecidableRel descVal := fun _ _ => inferInstanceAs (Decidable (_ = true))

/-- top_n_picos: the aggregated buckets with non-missing value, sorted
descending by value (ties determinised in input order), first n,
rendered as timestamp and value.  -/
def top_n_picos (aggS : List (ℚ × Option ℚ)) (n : ℕ) : List PyObj :=
  let s := aggS.filterMap (fun p => p.2.map (fun v => (p.1, v)))
  (List.insertionSort descVal s).take n |>.map (fun p =>
    PyObj.mkDict [("timestamp", .time p.1), ("valor", .num (.num p.2))])

/-- The demand events: no events when every bucket is NaN, otherwise
the nominal level is the median of the non-missing bucket means and
each non-missing bucket strictly outside the band is emitted. -/
def demanda_events (aggS : List (ℚ × Option ℚ)) (tol : ℚ) : List PyObj :=
  let sVals := aggS.filterMap Prod.snd
  if sVals.isEmpty then []
  else
    let nominal := medianQ sVals
    aggS.filterMap (fun p =>
      match p.2 with
      | none => none
      | some v =>
        if v < nominal * (1 - tol) then
          some (PyObj.mkDict [("timestamp", .time p.1), ("valor", .num (.num v)),
                              ("tipo", .str "queda_demanda")])
        else if v > nominal * (1 + tol) then
          some (PyObj.mkDict [("timestamp", .time p.1), ("valor", .num (.num v)),
                              ("tipo", .str "pico_demanda")])
        else none)

/-- The anomaly pass of the demanda module runs the shared z-score
detector over the aggregated series, whose index holds Timestamps, and
then applies int() to each flagged index label; int() of a Timestamp
raises TypeError, so the call only returns when no index is flagged. -/
def demanda_anomalias (aggS : List (ℚ × Option ℚ)) (z : ℚ) : Except String (List PyObj) :=
  let idx := detectar_anomalias_zscore (aggS.map Prod.snd) z
  if idx.isEmpty then .ok []
  else .error "TypeError: int() argument cannot be a Timestamp"

/-- The aggregated-trend call of the demanda module.  The times
argument pd.Series(index_agg) carries a fresh integer index while
series_agg keeps its datetime index, so the boolean mask conjunction in
tendencia_linear_simples aligns two index-disjoint series, filling with
false everywhere; the mask never reaches two points and the fit is
always the null pair. -/
def demanda_tendencia_agregada (_aggS : List (ℚ × Option ℚ)) : PyObj :=
  nullTrend

/-- estatisticas_demanda: basic statistics of the raw demand series. -/
def estatisticas_demanda (dem : List (Option ℚ)) : PyObj :=
  let s := dem.filterMap id
  if s = [] then
    PyObj.mkDict [("média", .num .null), ("desvio_padrao", .num .null),
                  ("mín", .num .null), ("máx", .num .null), ("amostras", .num (.num 0))]
  else
    PyObj.mkDict [("média", .num (.num (listMean s))), ("desvio_padrao", .num (sampleStdNum s)),
                  ("mín", .num (.num (minD s))), ("máx", .num (.num (maxD s))),
                  ("amostras", .num (.num (s.length : ℚ)))]

/-- analyze_records_demanda (and the public analisar_demanda_json):
the result passed through _to_native, or the propagated anomaly-pass
TypeError. -/
def analyze_records_demanda (inp : PyInput) (field_name : Option String) (agg : String)
    (tol z : ℚ) : Except String PyObj := do
  let rows := normalizar_input inp
  let sorted := sortRecs rows
  let chosen := choose_demand_field sorted field_name
  let dem := compute_demand_series sorted chosen
  let aggS := aggregate_time_series (colTs sorted) dem agg
  let anom ← demanda_anomalias aggS z
  .ok (toNative (PyObj.mkDict
    [("meta", PyObj.mkDict
        [("registros", .num (.num (sorted.length : ℚ))),
         ("periodo_inicio", periodoObj (optMin ((colTs sorted).filterMap id))),
         ("periodo_fim", periodoObj (optMax ((colTs sorted).filterMap id))),
         ("field_used", match chosen with
            | some c => .str c
            | none => .str "soma_fases"),
         ("tolerancia_perc", .num (.num tol)),
         ("timestamps_parsed", .num (.num ((sorted.countP (fun r => r.tsv.isSome)) : ℚ))),
         ("timestamps_invalid", .num (.num ((sorted.length - sorted.countP (fun r => r.tsv.isSome)) : ℚ)))]),
     ("estatisticas_demanda", estatisticas_demanda dem),
     ("perfil_horario", PyObj.mkArr (perfil_horario (colTs sorted) dem)),
     ("perfil_diario", PyObj.mkArr (perfil_diario (colTs sorted) dem)),
     ("time_series_agg", PyObj.mkDict
        [("data", PyObj.mkArr (aggS.map (fun p =>
            PyObj.mkDict [("timestamp", .time p.1), ("valor", optNum p.2)])))]),
     ("picos", PyObj.mkArr (top_n_picos aggS 5)),
     ("tendencias_lin", PyObj.mkDict [("agregada", demanda_tendencia_agregada aggS)]),
     ("anomalias_indices", PyObj.mkArr anom),
     ("events_out_of_limit", PyObj.mkArr (demanda_events aggS tol))]))

/- The Batteries definitions of the rational operations are marked
irreducible for elaboration performance; evaluating the embedded
pipelines on concrete inputs inside proofs needs them unfolded. -/
section ClaimProofs

attribute [local semireducible] Rat.add Rat.mul Rat.inv Rat.sub

/-- A null row of the statistics table, used to state degenerate
results explicitly. -/
def nullStatRow (labelKey mediaK stdK minK maxK f : String) : PyObj :=
  PyObj.mkDict [(labelKey, .str f), (mediaK, .num .null), (stdK, .num .null),
                (minK, .num .null), (maxK, .num .null), ("Amostras", .num (.num 0))]

/-- The degenerate corrente result: what the corrente analyzer returns
on the empty batch. -/
def corrente_degenerate (tol : ℚ) : PyObj :=
  PyObj.mkDict
    [("meta", PyObj.mkDict
        [("registros", .num (.num 0)), ("periodo_inicio", .num .null),
         ("periodo_fim", .num .null), ("nivel_nominal_detectado", .num .null),
         ("tolerancia_perc", .num (.num tol)), ("timestamps_parsed", .num (.num 0)),
         ("timestamps_invalid", .num (.num 0))]),
     ("tabela_estatisticas", PyObj.mkDict
        [("data", PyObj.mkArr
            [nullStatRow "Fase" "Média (A)" "Desvio Padrão (A)" "Mín (A)" "Máx (A)" "corrente_1",
             nullStatRow "Fase" "Média (A)" "Desvio Padrão (A)" "Mín (A)" "Máx (A)" "corrente_2",
             nullStatRow "Fase" "Média (A)" "Desvio Padrão (A)" "Mín (A)" "Máx (A)" "corrente_3"])]),
     ("grafico_corrente_time_series", PyObj.mkDict [("data", PyObj.mkArr [])]),
     ("tendencias_lin", PyObj.mkDict
        [("corrente_1", nullTrend), ("corrente_2", nullTrend), ("corrente_3", nullTrend)]),
     ("anomalias_indices", PyObj.mkDict
        [("corrente_1", PyObj.mkArr []), ("corrente_2", PyObj.mkArr []),
         ("corrente_3", PyObj.mkArr [])]),
     ("events_out_of_limit", PyObj.mkArr [])]

/-- The degenerate potencia result. -/
def potencia_degenerate (tol : ℚ) : PyObj :=
  PyObj.mkDict
    [("meta", PyObj.mkDict
        [("registros", .num (.num 0)), ("periodo_inicio", .num .null),
         ("periodo_fim", .num .null), ("nivel_nominal_ativa_tot", .num .null),
         ("tolerancia_perc", .num (.num tol)), ("timestamps_parsed", .num (.num 0)),
         ("timestamps_invalid", .num (.num 0))]),
     ("tabela_estatisticas", PyObj.mkDict [("data", PyObj.mkArr [])]),
     ("grafico_potencia_time_series", PyObj.mkDict [("data", PyObj.mkArr [])]),
     ("tendencias_lin", PyObj.mkDict []),
     ("anomalias_indices", PyObj.mkDict []),
     ("events_out_of_limit", PyObj.mkArr [])]

/-- The degenerate demanda result, under the default field name. -/
def demanda_degenerate (tol : ℚ) : PyObj :=
  PyObj.mkDict
    [("meta", PyObj.mkDict
        [("registros", .num (.num 0)), ("periodo_inicio", .num .null),
         ("periodo_fim", .num .null), ("field_used", .str "soma_fases"),
         ("tolerancia_perc", .num (.num tol)), ("timestamps_parsed", .num (.num 0)),
         ("timestamps_invalid", .num (.num 0))]),
     ("estatisticas_demanda", PyObj.mkDict
        [("média", .num .null), ("desvio_padrao", .num .null), ("mín", .num .null),
         ("máx", .num .null), ("amostras", .num (.num 0))]),
     ("perfil_horario", PyObj.mkArr []),
     ("perfil_diario", PyObj.mkArr []),
     ("time_series_agg", PyObj.mkDict [("data", PyObj.mkArr [])]),
     ("picos", PyObj.mkArr []),
     ("tendencias_lin", PyObj.mkDict [("agregada", nullTrend)]),
     ("anomalias_indices", PyObj.mkArr []),
     ("events_out_of_limit", PyObj.mkArr [])]

/-- C1 counterexample: the claim quantifies over every analyzer, but
the public tensao analyzer raises on both degenerate inputs: a null
batch is not iterable, and the empty batch builds a frame without the
data_coleta column, so indexing it raises KeyError. -/
theorem claim_C1_counterexample :
    analyze_records none (1/10) 3 = .error "TypeError: NoneType object is not iterable"
    ∧ analyze_records (some []) (1/10) 3 = .error "KeyError: data_coleta" :=
  ⟨rfl, rfl⟩

/-- C1 amended: the corrente, potencia and demanda analyzers, whose
input normalisation maps null to the empty batch, return on null and on
the empty list the degenerate result with meta.registros 0, all-null
statistics, null trends, empty anomaly sets and empty events, without
error; the tensao analyzer instead raises on both inputs. -/
theorem claim_C1_amended (tol z : ℚ) :
    analyze_records_corrente .null tol z = corrente_degenerate tol
    ∧ analyze_records_corrente (.list []) tol z = corrente_degenerate tol
    ∧ analyze_records_potencia .null tol z = potencia_degenerate tol
    ∧ analyze_records_potencia (.list []) tol z = potencia_degenerate tol
    ∧ analyze_records_demanda .null (some "potencia_ativa_tot") "hour" tol z =
        .ok (demanda_degenerate tol)
    ∧ analyze_records_demanda (.list []) (some "potencia_ativa_tot") "hour" tol z =
        .ok (demanda_degenerate tol)
    ∧ (∃ e, analyze_records none tol z = .error e)
    ∧ (∃ e, analyze_records (some []) tol z = .error e) :=
  ⟨rfl, rfl, rfl, rfl, rfl, rfl, ⟨_, rfl⟩, ⟨_, rfl⟩⟩

/-- C3 counterexample: for channel values 10, 10, 10, 10, 100 the mean
is 28 and the sample variance 1620, so the z magnitude of the value 100
is 72 divided by the square root of 1620, about 1.79; at the default
threshold 3.0 the detector flags nothing, not the index of 100. -/
theorem claim_C3_counterexample :
    detectar_anomalias_zscore [some 10, some 10, some 10, some 10, some 100] 3 = [] := by
  decide

/-- C3 amended: on 10, 10, 10, 10, 100 (mean 28, sample variance 1620)
the detector flags exactly the indices whose z magnitude exceeds the
threshold, for every threshold: every index when the threshold is
negative or below the inlier z magnitude 18 over the square root of
1620, exactly the index of the value 100 when the threshold lies
between the inlier and the outlier z magnitudes (stated via the
equivalent squared comparisons of the threshold against 324/1620 and
5184/1620), and no index at or beyond the outlier z magnitude 72 over
the square root of 1620 — in particular none at the default 3.0 and
exactly the index of 100 at 1.75. -/
theorem claim_C3_amended :
    (∀ thr : ℚ, detectar_anomalias_zscore [some 10, some 10, some 10, some 10, some 100] thr
      = if thr < 0 then [0, 1, 2, 3, 4]
        else if thr ^ 2 * 1620 < 324 then [0, 1, 2, 3, 4]
        else if thr ^ 2 * 1620 < 5184 then [4]
        else [])
    ∧ detectar_anomalias_zscore [some 10, some 10, some 10, some 10, some 100] 3 = []
    ∧ detectar_anomalias_zscore [some 10, some 10, some 10, some 10, some 100] (7/4) = [4] := by
  refine ⟨?_, by decide, by decide⟩
  intro thr
  by_cases h0 : thr < 0
  · rw [if_pos h0]
    norm_num [detectar_anomalias_zscore, zExceeds, h0, sampleVar, listMean,
              List.filterMap, List.enum, List.enumFrom]
  · rw [if_neg h0]
    by_cases h1 : thr ^ 2 * 1620 < 324
    · rw [if_pos h1]
      have h72 : thr ^ 2 * 1620 < 5184 := by linarith
      norm_num [detectar_anomalias_zscore, zExceeds, h0, h1, h72, sampleVar, listMean,
                List.filterMap, List.enum, List.enumFrom]
    · rw [if_neg h1]
      by_cases h2 : thr ^ 2 * 1620 < 5184
      · rw [if_pos h2]
        norm_num [detectar_anomalias_zscore, zExceeds, h0, h1, h2, sampleVar, listMean,
                  List.filterMap, List.enum, List.enumFrom]
      · rw [if_neg h2]
        norm_num [detectar_anomalias_zscore, zExceeds, h0, h1, h2, sampleVar, listMean,
                  List.filterMap, List.enum, List.enumFrom]

/-- C8: with nominal 220 and tolerance 1/10 the band is 198 to 242
inclusive: the bounds themselves map to the internal ok state and emit
no event, while 197.9 is classified under and 242.1 over, each emitting
an event (exact rational arithmetic; the comparisons in the source are
strict on both sides). -/
theorem claim_C8 :
    outside_limits (some 198) 220 (1/10) = some "ok"
    ∧ outside_limits (some 242) 220 (1/10) = some "ok"
    ∧ outside_limits (some (1979/10)) 220 (1/10) = some "subtensão"
    ∧ outside_limits (some (2421/10)) 220 (1/10) = some "sobretensão"
    ∧ tensaoEventFor 220 (1/10) ⟨none, [("tensao_1", some 198)]⟩ "tensao_1" = none
    ∧ tensaoEventFor 220 (1/10) ⟨none, [("tensao_1", some 242)]⟩ "tensao_1" = none
    ∧ tensaoEventFor 220 (1/10) ⟨none, [("tensao_1", some (1979/10))]⟩ "tensao_1" =
        some (PyObj.mkDict [("data_coleta", .num .null), ("fase", .str "tensao_1"),
                            ("valor", .num (.num (1979/10))), ("tipo", .str "subtensão")])
    ∧ tensaoEventFor 220 (1/10) ⟨none, [("tensao_1", some (2421/10))]⟩ "tensao_1" =
        some (PyObj.mkDict [("data_coleta", .num .null), ("fase", .str "tensao_1"),
                            ("valor", .num (.num (2421/10))), ("tipo", .str "sobretensão")]) :=
  ⟨rfl, rfl, rfl, rfl, rfl, rfl, rfl, rfl⟩


theorem cleanNum_not_nan (v : PyNum) : isNaNb (cleanNum v) = false := by
  cases v <;> rfl

mutual
theorem toNative_noNaN : (o : PyObj) → containsNaN (toNative o) = false
  | .num v => cleanNum_not_nan v
  | .str _ => rfl
  | .time _ => rfl
  | .dict kvs => toNativeKVs_noNaN kvs
  | .arr xs => toNativeObjs_noNaN xs
theorem toNativeObjs_noNaN : (xs : PyObjs) → containsNaNObjs (toNativeObjs xs) = false
  | .nil => rfl
  | .cons x tl => by
      simp only [toNativeObjs, containsNaNObjs, Bool.or_eq_false_iff]
      exact ⟨toNative_noNaN x, toNativeObjs_noNaN tl⟩
theorem toNativeKVs_noNaN : (kvs : PyKVs) → containsNaNKVs (toNativeKVs kvs) = false
  | .nil => rfl
  | .cons _ v tl => by
      simp only [toNativeKVs, containsNaNKVs, Bool.or_eq_false_iff]
      exact ⟨toNative_noNaN v, toNativeKVs_noNaN tl⟩
end

/-- The record of the C4 counterexample: a single enveloped record with
a valid timestamp and the three phase voltages. -/
def recC4 : Rec := ⟨some (some 0), [("tensao_1", some 218), ("tensao_2", some 221), ("tensao_3", some 220)]⟩

deriving instance DecidableEq for Except

/-- C4 counterexample: the tensao analyzer returns its result without
any _to_native pass, and on a single-record batch the per-phase sample
standard deviation (n-1 denominator over one sample) is float NaN, as
are the pairwise correlations, so the returned structure contains NaN
rather than the null sentinel. -/
theorem claim_C4_counterexample :
    (analyze_records (some [TItem.envObj recC4]) (1/10) 3).map containsNaN = .ok true := by
  decide

/-- C4 amended: the corrente, potencia and demanda analyzers pass their
result through _to_native, which maps every NaN leaf to the null
sentinel, so their outputs never contain NaN or Infinity; the tensao
analyzer returns the raw structure and can emit NaN (for example the
standard deviation of a single-sample channel). -/
theorem claim_C4_amended :
    (∀ o : PyObj, containsNaN (toNative o) = false)
    ∧ (∀ (inp : PyInput) (tol z : ℚ), containsNaN (analyze_records_corrente inp tol z) = false)
    ∧ (∀ (inp : PyInput) (tol z : ℚ), containsNaN (analyze_records_potencia inp tol z) = false)
    ∧ (∀ (inp : PyInput) (fn : Option String) (agg : String) (tol z : ℚ),
        (analyze_records_demanda inp fn agg tol z).map containsNaN ≠ .ok true) := by
  refine ⟨toNative_noNaN, fun inp tol z => toNative_noNaN _, fun inp tol z => toNative_noNaN _,
          fun inp fn agg tol z h => ?_⟩
  simp only [analyze_records_demanda, bind, Except.bind] at h
  split at h
  · simp [Except.map] at h
  · simp only [Except.map, toNative_noNaN] at h
    exact Bool.false_ne_true (Except.ok.inj h)

/-- The record of the C9 counterexample: an enveloped record whose
data_coleta value does not parse. -/
def recC9 : Rec := ⟨some none, [("tensao_1", some 218), ("tensao_2", some 221), ("tensao_3", some 220)]⟩

/-- C9 counterexample: the claim quantifies over every analyzer, but
the tensao meta block carries no timestamps_invalid key at all: on a
one-record batch with an unparsable timestamp the analyzer returns
normally with meta.registros 1, yet looking up timestamps_invalid in
meta yields nothing. -/
theorem claim_C9_counterexample :
    ((analyze_records (some [TItem.envObj recC9]) (1/10) 3).toOption.bind
        (fun o => o.getKey "meta")).map
      (fun m => (m.getKey "timestamps_invalid", m.getKey "registros"))
      = some (none, some (.num (.num 1))) := by
  decide

theorem length_sub_countP_isSome (l : List Rec) :
    l.length - l.countP (fun r => r.tsv.isSome) = l.countP (fun r => r.tsv.isNone) := by
  induction l with
  | nil => rfl
  | cons r l ih =>
    have hle : l.countP (fun r => r.tsv.isSome) ≤ l.length := List.countP_le_length _
    simp only [List.length_cons, List.countP_cons]
    cases hr : r.tsv <;> simp [hr] <;> omega

/-- C9 amended: the corrente analyzer (like potencia and demanda, which
share the same meta construction) counts every record whose designated
timestamp is missing or unparsable in meta.timestamps_invalid, never
raises for it, and still counts it in meta.registros; such records are
excluded from time ordering (sorted last) and contribute no usable
trend pair.  The tensao analyzer also tolerates them but reports no
timestamp counts in meta. -/
theorem claim_C9_amended (inp : PyInput) (tol z : ℚ) :
    ((analyze_records_corrente inp tol z).getKey "meta").bind
        (fun m => m.getKey "registros")
      = some (.num (.num ((normalizar_input inp).length : ℚ)))
    ∧ ((analyze_records_corrente inp tol z).getKey "meta").bind
        (fun m => m.getKey "timestamps_invalid")
      = some (.num (.num (((normalizar_input inp).countP (fun r => r.tsv.isNone)) : ℚ))) := by
  have hlen := (sortRecs_perm (normalizar_input inp)).length_eq
  have hcnt := (sortRecs_perm (normalizar_input inp)).countP_eq (fun r => r.tsv.isSome)
  constructor
  · simp [analyze_records_corrente, corrente_result, corrente_meta, PyObj.mkDict, mkKVs,
          toNative, toNativeKVs, PyObj.getKey, findKey, cleanNum, isNaNb, hlen, hcnt]
  · simp only [analyze_records_corrente, corrente_result, corrente_meta, PyObj.mkDict, mkKVs,
          toNative, toNativeKVs, PyObj.getKey, findKey, cleanNum, isNaNb]
    simp only [hlen, hcnt]
    rw [← length_sub_countP_isSome, Nat.cast_sub (List.countP_le_length _)]
    simp [findKey]

/-- C5 counterexample: in the tensao module two usable points sharing
one timestamp make np.polyfit raise (zero time spread is not guarded
there), so the fit failure propagates as an error instead of the null
pair the claim requires for every analyzer; the guarded fitter of the
other modules returns the null pair on the same input. -/
theorem claim_C5_counterexample :
    tensao_tendencia [some 0, some 0] [some 1, some 2]
      = .error "LinAlgError: SVD did not converge in Linear Least Squares"
    ∧ tendencia_linear_simples [some 0, some 0] [some 1, some 2] = nullTrend := by
  constructor <;> decide

/-- C5 amended: the trend fitter of the corrente, potencia and demanda
modules returns the null slope and intercept pair whenever fewer than
two usable pairs exist or the usable timestamps have zero spread (all
modelled values being finite, the non-finite guard never fires); the
tensao fitter returns the null pair only in the point-count case and
raises on zero spread with at least two usable points. -/
theorem claim_C5_amended (times vals : List (Option ℚ)) :
    ((usablePairs times vals).length < 2 ∨ ptpUsable (usablePairs times vals) = 0 →
      tendencia_linear_simples times vals = nullTrend)
    ∧ ((usablePairs times vals).length < 2 → tensao_tendencia times vals = .ok nullTrend)
    ∧ (2 ≤ (usablePairs times vals).length → ptpUsable (usablePairs times vals) = 0 →
        ∃ e, tensao_tendencia times vals = .error e) := by
  refine ⟨?_, ?_, ?_⟩
  · rintro (h | h)
    · simp [tendencia_linear_simples, h]
    · by_cases hl : (usablePairs times vals).length < 2 <;>
        simp [tendencia_linear_simples, hl, h]
  · intro h
    simp [tensao_tendencia, h]
  · intro h2 h3
    exact ⟨"LinAlgError: SVD did not converge in Linear Least Squares",
           by simp [tensao_tendencia, h3, Nat.not_lt.2 h2]⟩

/-- C5 witness: the theorem applied to the two-point zero-spread batch. -/
theorem claim_C5_witness :
    ((usablePairs [some 0, some 0] [some 1, some 2]).length < 2
      ∨ ptpUsable (usablePairs [some 0, some 0] [some 1, some 2]) = 0)
    ∧ tendencia_linear_simples [some 0, some 0] [some 1, some 2] = nullTrend
    ∧ (∃ e, tensao_tendencia [some 0, some 0] [some 1, some 2] = .error e) :=
  ⟨Or.inr (by decide), (claim_C5_amended _ _).1 (Or.inr (by decide)),
   (claim_C5_amended _ _).2.2 (by decide) (by decide)⟩


theorem foldl_min_le_init (l : List ℤ) (a : ℤ) : l.foldl min a ≤ a := by
  induction l generalizing a with
  | nil => exact le_refl a
  | cons y ys ih => exact le_trans (ih (min a y)) (min_le_left a y)

theorem foldl_min_le_mem {l : List ℤ} {x : ℤ} (hx : x ∈ l) (a : ℤ) : l.foldl min a ≤ x := by
  induction l generalizing a with
  | nil => cases hx
  | cons y ys ih =>
    rcases List.mem_cons.mp hx with h | h
    · subst h
      exact le_trans (foldl_min_le_init ys (min a x)) (min_le_right a x)
    · exact ih h (min a y)

theorem le_foldl_max_init (l : List ℤ) (a : ℤ) : a ≤ l.foldl max a := by
  induction l generalizing a with
  | nil => exact le_refl a
  | cons y ys ih => exact le_trans (le_max_left a y) (ih (max a y))

theorem le_foldl_max_mem {l : List ℤ} {x : ℤ} (hx : x ∈ l) (a : ℤ) : x ≤ l.foldl max a := by
  induction l generalizing a with
  | nil => cases hx
  | cons y ys ih =>
    rcases List.mem_cons.mp hx with h | h
    · subst h
      exact le_trans (le_max_right a x) (le_foldl_max_init ys (max a x))
    · exact ih h (max a y)

theorem iminOf_le {w : ℚ} {ps : List (ℚ × Option ℚ)} {p : ℚ × Option ℚ} (hp : p ∈ ps) :
    iminOf w ps ≤ bucketIdx w p.1 := by
  have hm : bucketIdx w p.1 ∈ ps.map (fun q => bucketIdx w q.1) :=
    List.mem_map_of_mem _ hp
  unfold iminOf
  cases hmap : ps.map (fun q => bucketIdx w q.1) with
  | nil => rw [hmap] at hm; cases hm
  | cons x xs =>
    rw [hmap] at hm
    rcases List.mem_cons.mp hm with h | h
    · subst h; exact foldl_min_le_init xs _
    · exact foldl_min_le_mem h x

theorem le_imaxOf {w : ℚ} {ps : List (ℚ × Option ℚ)} {p : ℚ × Option ℚ} (hp : p ∈ ps) :
    bucketIdx w p.1 ≤ imaxOf w ps := by
  have hm : bucketIdx w p.1 ∈ ps.map (fun q => bucketIdx w q.1) :=
    List.mem_map_of_mem _ hp
  unfold imaxOf
  cases hmap : ps.map (fun q => bucketIdx w q.1) with
  | nil => rw [hmap] at hm; cases hm
  | cons x xs =>
    rw [hmap] at hm
    rcases List.mem_cons.mp hm with h | h
    · subst h; exact le_foldl_max_init xs _
    · exact le_foldl_max_mem h x

theorem iminOf_le_imaxOf {w : ℚ} {ps : List (ℚ × Option ℚ)} (h : ps ≠ []) :
    iminOf w ps ≤ imaxOf w ps := by
  cases ps with
  | nil => exact absurd rfl h
  | cons p pr => exact le_trans (iminOf_le (List.mem_cons_self p pr)) (le_imaxOf (List.mem_cons_self p pr))

theorem aggWidth_ne_zero (agg : String) : aggWidth agg ≠ 0 := by
  unfold aggWidth
  split <;> norm_num

/-- C2 amended: the entries of the resampled demand series,
characterised per bucket index: an entry exists for a bucket exactly
when the bucket lies in the populated range (from the first to the
last bucket holding a sample), and the entry is null exactly when
additionally no sample with a non-missing value falls in the bucket —
empty in-range buckets are emitted with a null value, not omitted. -/
theorem claim_C2_amended (times vals : List (Option ℚ)) (agg : String)
    (h : validPairs times vals ≠ []) (i : ℤ) :
    ((∃ v, ((i : ℚ) * aggWidth agg, v) ∈ aggregate_time_series times vals agg)
      ↔ iminOf (aggWidth agg) (validPairs times vals) ≤ i
        ∧ i ≤ imaxOf (aggWidth agg) (validPairs times vals))
    ∧ (((i : ℚ) * aggWidth agg, (none : Option ℚ)) ∈ aggregate_time_series times vals agg
      ↔ iminOf (aggWidth agg) (validPairs times vals) ≤ i
        ∧ i ≤ imaxOf (aggWidth agg) (validPairs times vals)
        ∧ bucketVals (aggWidth agg) (validPairs times vals) i = []) := by
  have hw := aggWidth_ne_zero agg
  have hne : (validPairs times vals).isEmpty = false := by
    simpa [List.isEmpty_iff] using h
  have hmm := iminOf_le_imaxOf (w := aggWidth agg) h
  have key : ∀ v : Option ℚ,
      ((i : ℚ) * aggWidth agg, v) ∈ aggregate_time_series times vals agg
      ↔ (iminOf (aggWidth agg) (validPairs times vals) ≤ i
         ∧ i ≤ imaxOf (aggWidth agg) (validPairs times vals)
         ∧ v = (if (bucketVals (aggWidth agg) (validPairs times vals) i).isEmpty then none
                else some (listMean (bucketVals (aggWidth agg) (validPairs times vals) i)))) := by
    intro v
    constructor
    · intro hv
      simp only [aggregate_time_series, hne, Bool.false_eq_true, if_false] at hv
      rw [List.mem_map] at hv
      obtain ⟨k, hk, hkeq⟩ := hv
      rw [List.mem_range] at hk
      have hfst : ((iminOf (aggWidth agg) (validPairs times vals) + (k : ℤ) : ℤ) : ℚ)
          * aggWidth agg = (i : ℚ) * aggWidth agg := congrArg Prod.fst hkeq
      have hik : iminOf (aggWidth agg) (validPairs times vals) + (k : ℤ) = i := by
        have := mul_right_cancel₀ hw hfst
        exact_mod_cast this
      have hsnd := congrArg Prod.snd hkeq
      simp only at hsnd
      refine ⟨by omega, by omega, ?_⟩
      rw [← hsnd, hik]
    · rintro ⟨h1, h2, hv⟩
      simp only [aggregate_time_series, hne, Bool.false_eq_true, if_false]
      rw [List.mem_map]
      refine ⟨(i - iminOf (aggWidth agg) (validPairs times vals)).toNat, ?_, ?_⟩
      · rw [List.mem_range]; omega
      · have hik : iminOf (aggWidth agg) (validPairs times vals)
            + ((i - iminOf (aggWidth agg) (validPairs times vals)).toNat : ℤ) = i := by omega
        rw [hik, hv]
  constructor
  · constructor
    · rintro ⟨v, hv⟩
      exact ⟨((key v).mp hv).1, ((key v).mp hv).2.1⟩
    · rintro ⟨h1, h2⟩
      exact ⟨_, (key _).mpr ⟨h1, h2, rfl⟩⟩
  · constructor
    · intro hv
      obtain ⟨h1, h2, hv⟩ := (key none).mp hv
      refine ⟨h1, h2, ?_⟩
      by_cases hbe : (bucketVals (aggWidth agg) (validPairs times vals) i).isEmpty
      · exact List.isEmpty_iff.mp hbe
      · simp [hbe] at hv
    · rintro ⟨h1, h2, hb⟩
      exact (key none).mpr ⟨h1, h2, by simp [hb]⟩

/-- The three records of the C2 counterexample, at 08:00, 08:15 and
10:00 on the epoch day. -/
def recD1 : Rec := ⟨some (some 28800), [("potencia_ativa_tot", some 10)]⟩

def recD2 : Rec := ⟨some (some 29700), [("potencia_ativa_tot", some 20)]⟩

def recD3 : Rec := ⟨some (some 36000), [("potencia_ativa_tot", some 30)]⟩

/-- C2 counterexample: hourly demand aggregation over records at 08:00,
08:15 and 10:00 yields three bucket entries, not two: pandas resample
fills the in-range empty 09:00 bucket with NaN, which the assembler
emits as a null-valued entry. -/
theorem claim_C2_counterexample :
    (analyze_records_demanda (.list [.obj recD1, .obj recD2, .obj recD3])
        (some "potencia_ativa_tot") "hour" (1/10) 3).map (fun o => o.getKey "time_series_agg")
      = .ok (some (PyObj.mkDict [("data", PyObj.mkArr
          [PyObj.mkDict [("timestamp", .time 28800), ("valor", .num (.num 15))],
           PyObj.mkDict [("timestamp", .time 32400), ("valor", .num .null)],
           PyObj.mkDict [("timestamp", .time 36000), ("valor", .num (.num 30))]])])) := by
  decide

/-- C2 witness: the amended theorem applied to the 08:00, 08:15, 10:00
batch at the empty hour 9. -/
theorem claim_C2_witness :
    validPairs [some 28800, some 29700, some 36000] [some 10, some 20, some 30] ≠ []
    ∧ ((9 : ℚ) * 3600, (none : Option ℚ)) ∈
        aggregate_time_series [some 28800, some 29700, some 36000]
          [some 10, some 20, some 30] "hour" := by
  refine ⟨by decide, ?_⟩
  have h := (claim_C2_amended [some 28800, some 29700, some 36000]
    [some 10, some 20, some 30] "hour" (by decide) 9).2
  have h9 : ((9 : ℤ) : ℚ) * aggWidth "hour" = (9 : ℚ) * 3600 := by norm_num [aggWidth]
  rw [h9] at h
  exact h.mpr (by refine ⟨by decide, by decide, by decide⟩)

/-- The tail of the demand-channel priority order exactly as the claim
words it, for comparison with the code: the sum branch requires all
three per-phase columns. -/
def claimedDemandRest (rows : List Rec) : List (Option ℚ) :=
  if hasCol rows "potencia_ativa_tot" then colVals rows "potencia_ativa_tot"
  else if hasCol rows "potencia_ap_tot" then colVals rows "potencia_ap_tot"
  else if demandFases.all (fun c => hasCol rows c) then
    rows.map (fun r => minCountSum (demandFases.map (fun c => getv r c)))
  else if hasCol rows "potencia_ap_1" then colVals rows "potencia_ap_1"
  else if hasCol rows "potencia_ap_2" then colVals rows "potencia_ap_2"
  else if hasCol rows "potencia_ap_3" then colVals rows "potencia_ap_3"
  else rows.map (fun _ => none)

/-- The demand-channel resolution exactly as the claim states it. -/
def claimedDemandSeries (rows : List Rec) (field_name : Option String) : List (Option ℚ) :=
  match field_name with
  | some f => if hasCol rows f then colVals rows f else claimedDemandRest rows
  | none => claimedDemandRest rows

/-- The record of the C6 counterexample: only the first per-phase
active power column exists. -/
def recC6 : Rec := ⟨some (some 0), [("potencia_ativa_1", some 5)]⟩

/-- C6 counterexample: with only potencia_ativa_1 present the code
takes the per-phase sum path (it requires any, not all, of the three
phase columns) and returns the phase values, while the claimed rule
would skip the sum (not all three present), find no alternate field and
return the all-missing series. -/
theorem claim_C6_counterexample :
    compute_demand_series [recC6] (choose_demand_field [recC6] (some "potencia_ativa_tot"))
      = [some 5]
    ∧ claimedDemandSeries [recC6] (some "potencia_ativa_tot") = [none] := by
  constructor <;> decide

/-- C6 amended: when neither the caller field nor the two conventional
total fields exist but at least one of the three per-phase active power
columns does, the demand series is the row-wise min_count sum over
whichever phase columns are present — all three are not required. -/
theorem claim_C6_amended (rows : List Rec) (field_name : Option String)
    (h1 : ∀ f, field_name = some f → hasCol rows f = false)
    (h2 : hasCol rows "potencia_ativa_tot" = false)
    (h3 : hasCol rows "potencia_ap_tot" = false)
    (h4 : demandFases.filter (fun c => hasCol rows c) ≠ []) :
    compute_demand_series rows (choose_demand_field rows field_name)
      = rows.map (fun r => minCountSum
          ((demandFases.filter (fun c => hasCol rows c)).map (fun c => getv r c))) := by
  have hrest : choose_rest rows = none := by simp [choose_rest, h2, h3]
  have hch : choose_demand_field rows field_name = none := by
    cases field_name with
    | none => simpa [choose_demand_field] using hrest
    | some f => simp [choose_demand_field, h1 f rfl, hrest]
  have hfe : (demandFases.filter (fun c => hasCol rows c)).isEmpty = false := by
    simpa [List.isEmpty_iff] using h4
  rw [hch]
  simp [compute_demand_series, compute_demand_fallback, hfe]

/-- C6 witness: the amended theorem applied to the one-phase batch. -/
theorem claim_C6_witness :
    hasCol [recC6] "potencia_ativa_tot" = false
    ∧ hasCol [recC6] "potencia_ap_tot" = false
    ∧ demandFases.filter (fun c => hasCol [recC6] c) ≠ []
    ∧ compute_demand_series [recC6] (choose_demand_field [recC6] (some "potencia_ativa_tot"))
        = [recC6].map (fun r => minCountSum
            ((demandFases.filter (fun c => hasCol [recC6] c)).map (fun c => getv r c))) := by
  refine ⟨by decide, by decide, by decide,
    claim_C6_amended [recC6] (some "potencia_ativa_tot") ?_ (by decide) (by decide) (by decide)⟩
  intro f hf
  injection hf with hf
  subst hf
  decide

theorem pyMin3_spec (key : ℚ → ℚ) (a b c : ℚ) :
    (pyMin3 key a b c = a ∨ pyMin3 key a b c = b ∨ pyMin3 key a b c = c)
    ∧ key (pyMin3 key a b c) ≤ key a
    ∧ key (pyMin3 key a b c) ≤ key b
    ∧ key (pyMin3 key a b c) ≤ key c := by
  simp only [pyMin3]
  by_cases h1 : key b < key a
  · rw [if_pos h1]
    by_cases h2 : key c < key b
    · rw [if_pos h2]
      exact ⟨Or.inr (Or.inr rfl), by linarith, by linarith, le_refl _⟩
    · rw [if_neg h2]
      exact ⟨Or.inr (Or.inl rfl), by linarith, le_refl _, le_of_not_lt h2⟩
  · rw [if_neg h1]
    by_cases h2 : key c < key a
    · rw [if_pos h2]
      exact ⟨Or.inr (Or.inr rfl), by linarith, by linarith [le_of_not_lt h1], le_refl _⟩
    · rw [if_neg h2]
      exact ⟨Or.inl rfl, le_refl _, le_of_not_lt h1, le_of_not_lt h2⟩

theorem hasCol_of_filterMap_ne (rows : List Rec) (c : String)
    (h : (colVals rows c).filterMap id ≠ []) : hasCol rows c = true := by
  rcases List.exists_mem_of_ne_nil _ h with ⟨v, hv⟩
  rcases List.mem_filterMap.mp hv with ⟨x, hx, hxv⟩
  rcases List.mem_map.mp hx with ⟨r, hr, hrx⟩
  refine List.any_eq_true.mpr ⟨r, hr, ?_⟩
  have : getv r c = some v := by rw [hrx]; exact hxv
  unfold getv at this
  cases hl : r.vals.lookup c with
  | none => rw [hl] at this; cases this
  | some o => rfl

/-- C7: when the channel group holds at least one non-missing sample,
the tensao detector returns a member of the fixed candidate set 110,
220, 380 whose distance to the median of the pooled values is minimal,
while the corrente detector returns the raw pooled median and the
potencia detector the raw median of the potencia_ativa_tot column; with
no samples each detector returns null. -/
theorem claim_C7 (rows : List Rec) :
    (pooledVals rows tensaoFases ≠ [] →
      ∃ lv, escolher_nivel_nominal rows tensaoFases = some lv
        ∧ lv ∈ possiveis_niveis
        ∧ ∀ c ∈ possiveis_niveis,
            |lv - medianQ (pooledVals rows tensaoFases)|
              ≤ |c - medianQ (pooledVals rows tensaoFases)|)
    ∧ (pooledVals rows tensaoFases = [] → escolher_nivel_nominal rows tensaoFases = none)
    ∧ (pooledVals rows correnteFases ≠ [] →
        escolher_nivel_nominal_por_mediana rows correnteFases
          = some (medianQ (pooledVals rows correnteFases)))
    ∧ (pooledVals rows correnteFases = [] →
        escolher_nivel_nominal_por_mediana rows correnteFases = none)
    ∧ ((colVals rows "potencia_ativa_tot").filterMap id ≠ [] →
        escolher_nivel_nominal_potencia_total rows
          = some (medianQ ((colVals rows "potencia_ativa_tot").filterMap id)))
    ∧ ((colVals rows "potencia_ativa_tot").filterMap id = [] →
        escolher_nivel_nominal_potencia_total rows = none) := by
  refine ⟨?_, ?_, ?_, ?_, ?_, ?_⟩
  · intro h
    obtain ⟨hmem, h110, h220, h380⟩ :=
      pyMin3_spec (fun x => |x - medianQ (pooledVals rows tensaoFases)|) 110 220 380
    refine ⟨pyMin3 (fun x => |x - medianQ (pooledVals rows tensaoFases)|) 110 220 380,
            by simp [escolher_nivel_nominal, h], ?_, ?_⟩
    · rcases hmem with h | h | h <;> rw [h] <;> simp [possiveis_niveis]
    · intro c hc
      simp only [possiveis_niveis, List.mem_cons, List.not_mem_nil, or_false] at hc
      rcases hc with rfl | rfl | rfl
      · exact h110
      · exact h220
      · exact h380
  · intro h
    simp [escolher_nivel_nominal, h]
  · intro h
    simp [escolher_nivel_nominal_por_mediana, h]
  · intro h
    simp [escolher_nivel_nominal_por_mediana, h]
  · intro h
    simp [escolher_nivel_nominal_potencia_total, hasCol_of_filterMap_ne rows _ h, h]
  · intro h
    by_cases hc : hasCol rows "potencia_ativa_tot" <;>
      simp [escolher_nivel_nominal_potencia_total, hc, h]

/-- The record of the C7 witness, carrying one voltage, one current and
one total power sample. -/
def recC7 : Rec := ⟨some (some 0), [("tensao_1", some 230), ("corrente_1", some 5), ("potencia_ativa_tot", some 100)]⟩

/-- C7 witness: the theorem applied to a one-record batch. -/
theorem claim_C7_witness :
    pooledVals [recC7] tensaoFases ≠ []
    ∧ (∃ lv, escolher_nivel_nominal [recC7] tensaoFases = some lv
        ∧ lv ∈ possiveis_niveis
        ∧ ∀ c ∈ possiveis_niveis,
            |lv - medianQ (pooledVals [recC7] tensaoFases)|
              ≤ |c - medianQ (pooledVals [recC7] tensaoFases)|)
    ∧ escolher_nivel_nominal_por_mediana [recC7] correnteFases
        = some (medianQ (pooledVals [recC7] correnteFases))
    ∧ escolher_nivel_nominal_potencia_total [recC7]
        = some (medianQ ((colVals [recC7] "potencia_ativa_tot").filterMap id)) :=
  ⟨by decide, (claim_C7 [recC7]).1 (by decide), (claim_C7 [recC7]).2.2.1 (by decide),
   (claim_C7 [recC7]).2.2.2.2.1 (by decide)⟩

theorem toNativeObjs_mkObjs (l : List PyObj) :
    toNativeObjs (mkObjs l) = mkObjs (l.map toNative) := by
  induction l with
  | nil => rfl
  | cons x tl ih => simp [mkObjs, toNativeObjs, ih]

theorem toNative_mkArr (l : List PyObj) :
    toNative (PyObj.mkArr l) = PyObj.mkArr (l.map toNative) := by
  simp [PyObj.mkArr, toNative, toNativeObjs_mkObjs]

theorem toList_mkObjs (l : List PyObj) : (mkObjs l).toList = l := by
  induction l with
  | nil => rfl
  | cons x tl ih => simp [mkObjs, PyObjs.toList, ih]

/-- C10: in the corrente analyzer (the tensao analyzer shares the same
event loop), whenever a nominal level was detected, a record whose
timestamp failed to parse still takes part in event detection: if one
of its phase values lies strictly outside the band, the result carries
an event for it whose data_inc field is null. -/
theorem claim_C10 (inp : PyInput) (tol z nivel v : ℚ) (f : String) (r : Rec)
    (hmem : r ∈ normalizar_input inp) (hts : r.tsv = none) (hf : f ∈ correnteFases)
    (hv : getv r f = some v)
    (hniv : escolher_nivel_nominal_por_mediana (sortRecs (normalizar_input inp)) correnteFases
      = some nivel)
    (hout : v < nivel * (1 - tol) ∨ v > nivel * (1 + tol)) :
    ∃ tp evs,
      (analyze_records_corrente inp tol z).getKey "events_out_of_limit" = some (.arr evs)
      ∧ PyObj.mkDict [("data_inc", .num .null), ("fase", .str f),
                      ("valor", .num (.num v)), ("tipo", .str tp)] ∈ evs.toList := by
  have hrs : r ∈ sortRecs (normalizar_input inp) :=
    (sortRecs_perm (normalizar_input inp)).mem_iff.mpr hmem
  have hts' : tsObjOf r = .num .null := by simp [tsObjOf, hts]
  have hev : ∃ tp, correnteEventFor nivel tol r f
      = some (PyObj.mkDict [("data_inc", .num .null), ("fase", .str f),
                            ("valor", .num (.num v)), ("tipo", .str tp)]) := by
    by_cases hlo : v < nivel * (1 - tol)
    · exact ⟨"subcorrente",
        by simp [correnteEventFor, outside_limits_corrente, optNum, hv, hlo, hts']⟩
    · rcases hout with h | hhi
      · exact absurd h hlo
      · exact ⟨"sobrecorrente",
          by simp [correnteEventFor, outside_limits_corrente, optNum, hv, hlo, hhi, hts']⟩
  obtain ⟨tp, htp⟩ := hev
  refine ⟨tp, mkObjs ((correnteEvents (sortRecs (normalizar_input inp)) nivel tol).map toNative),
          ?_, ?_⟩
  · simp [analyze_records_corrente, corrente_result, PyObj.mkDict, mkKVs, toNative,
          toNativeKVs, PyObj.getKey, findKey, hniv, PyObj.mkArr, toNativeObjs_mkObjs]
  · rw [toList_mkObjs]
    have hin : PyObj.mkDict [("data_inc", .num .null), ("fase", .str f),
        ("valor", .num (.num v)), ("tipo", .str tp)]
        ∈ correnteEvents (sortRecs (normalizar_input inp)) nivel tol :=
      List.mem_flatMap.mpr ⟨r, hrs, List.mem_filterMap.mpr ⟨f, hf, htp⟩⟩
    have hfix : toNative (PyObj.mkDict [("data_inc", .num .null), ("fase", .str f),
        ("valor", .num (.num v)), ("tipo", .str tp)])
        = PyObj.mkDict [("data_inc", .num .null), ("fase", .str f),
                        ("valor", .num (.num v)), ("tipo", .str tp)] := by
      simp [PyObj.mkDict, mkKVs, toNative, toNativeKVs, cleanNum, isNaNb]
    rw [← hfix]
    exact List.mem_map_of_mem toNative hin

/-- The records of the C10 witness: one with an unparsable timestamp
and an out-of-band current, one valid record setting the median. -/
def recC10a : Rec := ⟨some none, [("corrente_1", some 1)]⟩

def recC10b : Rec := ⟨some (some 100), [("corrente_1", some 10)]⟩

/-- C10 witness: the theorem applied to the two-record batch, where the
detected nominal level is the median 11/2 and the invalid-timestamp
record value 1 lies below the band. -/
theorem claim_C10_witness :
    recC10a ∈ normalizar_input (.list [.obj recC10a, .obj recC10b])
    ∧ recC10a.tsv = none
    ∧ escolher_nivel_nominal_por_mediana
        (sortRecs (normalizar_input (.list [.obj recC10a, .obj recC10b]))) correnteFases
        = some (11/2)
    ∧ (∃ tp evs,
        (analyze_records_corrente (.list [.obj recC10a, .obj recC10b]) (1/10) 3).getKey
            "events_out_of_limit" = some (.arr evs)
        ∧ PyObj.mkDict [("data_inc", .num .null), ("fase", .str "corrente_1"),
                        ("valor", .num (.num 1)), ("tipo", .str tp)] ∈ evs.toList) := by
  refine ⟨by decide, by decide, by decide, ?_⟩
  exact claim_C10 (.list [.obj recC10a, .obj recC10b]) (1/10) 3 (11/2) 1 "corrente_1" recC10a
    (by decide) (by decide) (by decide) (by decide) (by decide) (Or.inl (by norm_num))

end ClaimProofs
